import Mathlib

/-!
Shallow embedding of the base Variable implementation
(`src/oracledb/impl/base/var.pyx`, class `BaseVarImpl`).

Python values are modelled by `PyValue`; the connection-level value check
`_conn_impl._check_value` and the optional `inconverter` are not part of
`var.pyx`, so they are passed in as an environment (`VarEnv`).  A method
call is modelled as a function from the variable's state to a `StepResult`
that carries the state at return or at raise time: in Python an exception
propagates but mutations made before the raise persist, so the error
branch must keep the mutated state.
-/

namespace OracleVar

/-- A dynamically typed Python value, restricted to the shapes the binder
deals with: `None`, booleans, integers, strings and lists of values. -/
inductive PyValue : Type where
  | none : PyValue
  | bool (b : Bool) : PyValue
  | int (i : Int) : PyValue
  | str (s : String) : PyValue
  | list (elems : List PyValue) : PyValue

mutual

/-- Decidable equality for `PyValue` (the nested list forces a hand-written
instance). -/
def PyValue.decEq : (a b : PyValue) → Decidable (a = b)
  | .none, .none => isTrue rfl
  | .bool a, .bool b =>
      if h : a = b then isTrue (by rw [h])
      else isFalse (fun hc => h (by injection hc))
  | .int a, .int b =>
      if h : a = b then isTrue (by rw [h])
      else isFalse (fun hc => h (by injection hc))
  | .str a, .str b =>
      if h : a = b then isTrue (by rw [h])
      else isFalse (fun hc => h (by injection hc))
  | .list a, .list b =>
      match PyValue.decEqList a b with
      | isTrue h => isTrue (by rw [h])
      | isFalse h => isFalse (fun hc => h (by injection hc))
  | .none, .bool _ => isFalse (fun h => PyValue.noConfusion h)
  | .none, .int _ => isFalse (fun h => PyValue.noConfusion h)
  | .none, .str _ => isFalse (fun h => PyValue.noConfusion h)
  | .none, .list _ => isFalse (fun h => PyValue.noConfusion h)
  | .bool _, .none => isFalse (fun h => PyValue.noConfusion h)
  | .bool _, .int _ => isFalse (fun h => PyValue.noConfusion h)
  | .bool _, .str _ => isFalse (fun h => PyValue.noConfusion h)
  | .bool _, .list _ => isFalse (fun h => PyValue.noConfusion h)
  | .int _, .none => isFalse (fun h => PyValue.noConfusion h)
  | .int _, .bool _ => isFalse (fun h => PyValue.noConfusion h)
  | .int _, .str _ => isFalse (fun h => PyValue.noConfusion h)
  | .int _, .list _ => isFalse (fun h => PyValue.noConfusion h)
  | .str _, .none => isFalse (fun h => PyValue.noConfusion h)
  | .str _, .bool _ => isFalse (fun h => PyValue.noConfusion h)
  | .str _, .int _ => isFalse (fun h => PyValue.noConfusion h)
  | .str _, .list _ => isFalse (fun h => PyValue.noConfusion h)
  | .list _, .none => isFalse (fun h => PyValue.noConfusion h)
  | .list _, .bool _ => isFalse (fun h => PyValue.noConfusion h)
  | .list _, .int _ => isFalse (fun h => PyValue.noConfusion h)
  | .list _, .str _ => isFalse (fun h => PyValue.noConfusion h)

/-- Decidable equality for lists of `PyValue`. -/
def PyValue.decEqList : (a b : List PyValue) → Decidable (a = b)
  | [], [] => isTrue rfl
  | [], _ :: _ => isFalse (fun h => List.noConfusion h)
  | _ :: _, [] => isFalse (fun h => List.noConfusion h)
  | x :: xs, y :: ys =>
      match PyValue.decEq x y with
      | isFalse h => isFalse (fun hc => h (by injection hc))
      | isTrue h1 =>
          match PyValue.decEqList xs ys with
          | isTrue h2 => isTrue (by rw [h1, h2])
          | isFalse h2 => isFalse (fun hc => h2 (by injection hc))

end

instance : DecidableEq PyValue := PyValue.decEq

/-- Python's `len` on the values for which the binder calls it (strings and
lists); other values never reach the `len` call in `_check_and_set_scalar_value`
because `_check_value` has already matched them against the metadata. -/
def pyLen : PyValue → Nat
  | .str s => s.length
  | .list elems => elems.length
  | _ => 0

/-- Python's `isinstance(value, list)`. -/
def PyValue.isList : PyValue → Bool
  | .list _ => true
  | _ => false

/-- A database type tag.  The tags are singleton objects in the source, so the
`is` comparisons there are equality of tags here; `default_size` is the
attribute consulted by the resize logic. -/
structure DbType where
  num : Nat
  default_size : Nat
  deriving DecidableEq

def DB_TYPE_BOOLEAN : DbType := ⟨4, 0⟩

def DB_TYPE_BINARY_INTEGER : DbType := ⟨3, 0⟩

def DB_TYPE_VARCHAR : DbType := ⟨1, 4000⟩

def DB_TYPE_NUMBER : DbType := ⟨2, 0⟩

/-- The metadata fields of `OracleMetadata` that `var.pyx` reads or writes. -/
structure OracleMetadata where
  dbtype : DbType
  objtype : Option Nat
  max_size : Nat
  buffer_size : Nat
  deriving DecidableEq

/-- Modelled from the spec: `OracleMetadata._finalize_init` is defined in the
metadata code, which is not under src/.  Per the spec, `buffer_size` is a
derived quantity and "once bound, `max_size` only grows (never shrinks)", so
finalization recomputes the buffer size from the maximum size and leaves the
type, object type and maximum size unchanged. -/
def OracleMetadata.finalize_init (m : OracleMetadata) : OracleMetadata :=
  { m with buffer_size := m.max_size }

/-- The state of a `BaseVarImpl`: its metadata, array flag, capacities and
element slots.  The abstract `_set_scalar_value` / `_get_scalar_value`
subclass methods ("set/return the value of the variable at the given
position") are modelled as updates/reads of the `values` slot list. -/
structure VarState where
  metadata : OracleMetadata
  is_array : Bool
  num_elements : Nat
  num_elements_in_array : Nat
  values : List PyValue
  is_value_set : Bool
  deriving DecidableEq

/-- The collaborators of `BaseVarImpl` that live outside `var.pyx`: the
connection's `_check_value` (returns the possibly adjusted value, or rejects
it) and the optional caller-supplied `inconverter`. -/
structure VarEnv where
  checkValue : OracleMetadata → PyValue → Option PyValue
  inconverter : Option (PyValue → PyValue)

/-- The errors raised by the embedded code paths. -/
inductive VarError : Type where
  | valueNotAcceptable : VarError
  | expectingListForArrayVar : VarError
  | incorrectVarArraysize (var_arraysize required_arraysize : Nat) : VarError
  | mixedElementTypes : VarError
  | arraysOfArrays : VarError
  | indexError : VarError
  deriving DecidableEq

/-- The two calling conventions of the `was_set` pointer: `raising` is a NULL
pointer (unacceptable values raise), `soft` is a non-NULL pointer whose flag
starts true and is cleared instead of raising. -/
inductive Mode : Type where
  | raising : Mode
  | soft : Mode
  deriving DecidableEq

/-- The outcome of a method call: the variable state at return or raise time,
the raised error if any, and the final value of the `was_set` flag (it is
only meaningful in `soft` mode; in `raising` mode it stays `true`). -/
structure StepResult where
  st : VarState
  err : Option VarError
  was_set : Bool
  deriving DecidableEq

/-- Apply the `inconverter`, if one has been set. -/
def applyConv (env : VarEnv) (value : PyValue) : PyValue :=
  match env.inconverter with
  | some f => f value
  | Option.none => value

/-- `BaseVarImpl._resize`: store the new max size, clear the buffer size and
re-finalize the metadata. -/
def VarState.resize (st : VarState) (new_size : Nat) : VarState :=
  let m : OracleMetadata :=
    { st.metadata with max_size := new_size, buffer_size := 0 }
  { st with metadata := m.finalize_init }

/-- `BaseVarImpl._set_scalar_value` (subclass contract: set the value of the
variable at the given position). -/
def VarState.set_scalar_value (st : VarState) (pos : Nat) (value : PyValue) :
    VarState :=
  { st with values := st.values.set pos value }

/-- `BaseVarImpl._set_num_elements_in_array`. -/
def VarState.set_num_elements_in_array (st : VarState) (n : Nat) : VarState :=
  { st with num_elements_in_array := n }

/-- `BaseVarImpl._check_and_set_scalar_value`: apply the in converter, check
the value through the connection, resize if the checked value's length
exceeds the current max size (only for types with a nonzero default size),
then store the value and mark the variable set. -/
def check_and_set_scalar_value (env : VarEnv) (mode : Mode) (st : VarState)
    (pos : Nat) (value : PyValue) : StepResult :=
  let value := applyConv env value
  match env.checkValue st.metadata value with
  | Option.none =>
      match mode with
      | .soft => ⟨st, Option.none, false⟩
      | .raising => ⟨st, some .valueNotAcceptable, true⟩
  | some value =>
      let st1 :=
        if value ≠ PyValue.none ∧ st.metadata.dbtype.default_size ≠ 0 then
          if pyLen value > st.metadata.max_size then st.resize (pyLen value)
          else st
        else st
      let st2 := st1.set_scalar_value pos value
      ⟨{ st2 with is_value_set := true }, Option.none, true⟩

/-- The element loop of `BaseVarImpl._check_and_set_value`: check and set each
element in turn, propagating a raise, and in soft mode returning as soon as
the flag has been cleared. -/
def set_array_elements (env : VarEnv) (mode : Mode) :
    VarState → Nat → List PyValue → StepResult
  | st, _, [] => ⟨st, Option.none, true⟩
  | st, i, v :: rest =>
      let r := check_and_set_scalar_value env mode st i v
      match r.err with
      | some e => ⟨r.st, some e, r.was_set⟩
      | Option.none =>
          if mode = .soft ∧ r.was_set = false then ⟨r.st, Option.none, false⟩
          else set_array_elements env mode r.st (i + 1) rest

/-- `BaseVarImpl._check_and_set_value`: scalar variables delegate to the
scalar path; array variables require a list value, check its length against
`num_elements`, check and set each element, and finally record the number of
elements in the array. -/
def check_and_set_value (env : VarEnv) (mode : Mode) (st : VarState)
    (pos : Nat) (value : PyValue) : StepResult :=
  if st.is_array = false then
    check_and_set_scalar_value env mode st pos value
  else
    match value with
    | .list elems =>
        if elems.length > st.num_elements then
          match mode with
          | .soft => ⟨st, Option.none, false⟩
          | .raising =>
              ⟨st, some (.incorrectVarArraysize st.num_elements elems.length),
                true⟩
        else
          let r := set_array_elements env mode st 0 elems
          match r.err with
          | some e => ⟨r.st, some e, r.was_set⟩
          | Option.none =>
              if mode = .soft ∧ r.was_set = false then
                ⟨r.st, Option.none, false⟩
              else
                ⟨r.st.set_num_elements_in_array elems.length, Option.none,
                  r.was_set⟩
    | _ =>
        match mode with
        | .soft => ⟨st, Option.none, false⟩
        | .raising => ⟨st, some .expectingListForArrayVar, true⟩

/-- `BaseVarImpl._finalize_init`: finalize the metadata and normalize a zero
`num_elements` to 1. -/
def VarState.finalize_init (st : VarState) : VarState :=
  { st with metadata := st.metadata.finalize_init,
            num_elements := if st.num_elements = 0 then 1 else st.num_elements }

/-- `BaseVarImpl._on_reset_bind`: grow `num_elements` to `num_rows` when the
latter is larger, re-finalizing initialization. -/
def on_reset_bind (st : VarState) (num_rows : Nat) : VarState :=
  if st.num_elements < num_rows then
    VarState.finalize_init { st with num_elements := num_rows }
  else st

/-- The boolean-fallback step of `BaseVarImpl._set_metadata_from_value`: the
metadata inferred from the value (`OracleMetadata.from_value`, passed in as
`from_value`), with `DB_TYPE_BOOLEAN` mapped to `DB_TYPE_BINARY_INTEGER` when
the connection lacks native boolean support and the context is not PL/SQL. -/
def inferred_metadata (from_value : PyValue → OracleMetadata)
    (supports_bool : Bool) (is_plsql : Bool) (value : PyValue) :
    OracleMetadata :=
  let metadata := from_value value
  if metadata.dbtype = DB_TYPE_BOOLEAN ∧ supports_bool = false ∧
      is_plsql = false then
    { metadata with dbtype := DB_TYPE_BINARY_INTEGER }
  else metadata

/-- `BaseVarImpl._set_metadata_from_value` as a function of the variable's
current `metadata` field (the only state it touches): adopt the inferred
metadata when none is stored yet, raise on a type or object-type mismatch,
and otherwise widen `max_size` to the larger of the two sizes. -/
def set_metadata_from_value (from_value : PyValue → OracleMetadata)
    (supports_bool : Bool) (cur : Option OracleMetadata) (value : PyValue)
    (is_plsql : Bool) : Except VarError OracleMetadata :=
  let metadata := inferred_metadata from_value supports_bool is_plsql value
  match cur with
  | Option.none => .ok metadata
  | some m =>
      if metadata.dbtype ≠ m.dbtype ∨ metadata.objtype ≠ m.objtype then
        .error .mixedElementTypes
      else if metadata.max_size > m.max_size then
        .ok { m with max_size := metadata.max_size }
      else .ok m

/-- `BaseVarImpl._get_array_value` (subclass contract: the value of the
array, its first `num_elements_in_array` elements). -/
def get_array_value (st : VarState) : PyValue :=
  .list (st.values.take st.num_elements_in_array)

/-- `BaseVarImpl._get_scalar_value` (subclass contract: the value of the
variable at the given position). -/
def get_scalar_value (st : VarState) (pos : Nat) : PyValue :=
  st.values.getD pos PyValue.none

/-- `BaseVarImpl.get_value`: arrays return the array value; scalars check the
position against `num_elements` and read the slot. -/
def get_value (st : VarState) (pos : Nat) : Except VarError PyValue :=
  if st.is_array then .ok (get_array_value st)
  else if pos ≥ st.num_elements then .error .indexError
  else .ok (get_scalar_value st pos)

/-- `BaseVarImpl.set_value`: arrays reject a nonzero position, scalars check
the position against `num_elements`; then delegate to the checked set with a
NULL `was_set` pointer (raising mode). -/
def set_value (env : VarEnv) (st : VarState) (pos : Nat) (value : PyValue) :
    StepResult :=
  if st.is_array then
    if pos > 0 then ⟨st, some .arraysOfArrays, true⟩
    else check_and_set_value env .raising st pos value
  else if pos ≥ st.num_elements then ⟨st, some .indexError, true⟩
  else check_and_set_value env .raising st pos value

/-- A concrete environment for witnesses and counterexamples: the connection
check rejects the integer 0 and accepts any other value unchanged, and no in
converter is configured. -/
def env0 : VarEnv :=
  ⟨fun _ v => if v = PyValue.int 0 then Option.none else some v, Option.none⟩

def md0 : OracleMetadata := ⟨DB_TYPE_NUMBER, Option.none, 0, 0⟩

def mdStr : OracleMetadata := ⟨DB_TYPE_VARCHAR, Option.none, 2, 2⟩

/-- A two-element array variable with empty slots. -/
def stArr : VarState := ⟨md0, true, 2, 0, [PyValue.none, PyValue.none], false⟩

/-- A one-element scalar variable. -/
def stSc : VarState := ⟨md0, false, 1, 0, [PyValue.none], false⟩

/-- A one-element scalar string variable with `max_size` 2. -/
def stStr : VarState := ⟨mdStr, false, 1, 0, [PyValue.none], false⟩

/-- A concrete metadata inference for witnesses: every value infers type
`DB_TYPE_BOOLEAN` with `max_size` 5. -/
def fv0 : PyValue → OracleMetadata := fun _ => ⟨DB_TYPE_BOOLEAN, Option.none, 5, 0⟩

def mBin : OracleMetadata := ⟨DB_TYPE_BINARY_INTEGER, Option.none, 3, 0⟩

/-- The scalar checked set leaves the array flag, both element counters and
the slot count unchanged, and never shrinks `max_size`. -/
theorem scalar_frame (env : VarEnv) (mode : Mode) (st : VarState) (pos : Nat)
    (value : PyValue) :
    (check_and_set_scalar_value env mode st pos value).st.is_array =
      st.is_array ∧
    (check_and_set_scalar_value env mode st pos value).st.num_elements =
      st.num_elements ∧
    (check_and_set_scalar_value env mode st pos value).st.num_elements_in_array
      = st.num_elements_in_array ∧
    st.metadata.max_size ≤
      (check_and_set_scalar_value env mode st pos value).st.metadata.max_size
    := by
  unfold check_and_set_scalar_value
  cases hc : env.checkValue st.metadata (applyConv env value) with
  | none => cases mode <;> simp [hc]
  | some w =>
      simp only [hc]
      split_ifs with h1 h2 <;>
        simp_all [VarState.resize, VarState.set_scalar_value,
          OracleMetadata.finalize_init]
      all_goals omega

/-- The scalar checked set touches no slot other than the one at `pos`. -/
theorem scalar_slot (env : VarEnv) (mode : Mode) (st : VarState) (pos : Nat)
    (value : PyValue) (j : Nat) (hj : pos ≠ j) :
    (check_and_set_scalar_value env mode st pos value).st.values[j]? =
      st.values[j]? := by
  unfold check_and_set_scalar_value
  cases hc : env.checkValue st.metadata (applyConv env value) with
  | none => cases mode <;> simp [hc]
  | some w =>
      simp only [hc]
      split_ifs <;>
        simp [VarState.resize, VarState.set_scalar_value,
          List.getElem?_set_ne hj]

/-- The scalar checked set raises only the value-acceptability error, and
when it raises the state is unchanged. -/
theorem scalar_err (env : VarEnv) (mode : Mode) (st : VarState) (pos : Nat)
    (value : PyValue) :
    (check_and_set_scalar_value env mode st pos value).err = Option.none ∨
    ((check_and_set_scalar_value env mode st pos value).err =
        some .valueNotAcceptable ∧
      (check_and_set_scalar_value env mode st pos value).st = st) := by
  unfold check_and_set_scalar_value
  cases hc : env.checkValue st.metadata (applyConv env value) with
  | none => cases mode <;> simp [hc]
  | some w =>
      simp only [hc]
      split_ifs <;> simp

/-- In raising mode the scalar checked set leaves the `was_set` flag true
(the pointer is NULL and never written). -/
theorem scalar_was_set_raising (env : VarEnv) (st : VarState) (pos : Nat)
    (value : PyValue) :
    (check_and_set_scalar_value env .raising st pos value).was_set = true := by
  unfold check_and_set_scalar_value
  cases hc : env.checkValue st.metadata (applyConv env value) with
  | none => simp [hc]
  | some w => simp [hc]

/-- When the connection check accepts the (converted) value, the scalar
checked set returns normally with the flag still set. -/
theorem scalar_ok_of_acceptable (env : VarEnv) (mode : Mode) (st : VarState)
    (pos : Nat) (value : PyValue)
    (h : (env.checkValue st.metadata (applyConv env value)).isSome = true) :
    (check_and_set_scalar_value env mode st pos value).err = Option.none ∧
    (check_and_set_scalar_value env mode st pos value).was_set = true := by
  unfold check_and_set_scalar_value
  cases hc : env.checkValue st.metadata (applyConv env value) with
  | none => rw [hc] at h; simp at h
  | some w => simp [hc]

/-- The element loop leaves the array flag and both element counters
unchanged and never shrinks `max_size`. -/
theorem loop_frame (env : VarEnv) (mode : Mode) :
    ∀ (elems : List PyValue) (st : VarState) (i : Nat),
    (set_array_elements env mode st i elems).st.is_array = st.is_array ∧
    (set_array_elements env mode st i elems).st.num_elements =
      st.num_elements ∧
    (set_array_elements env mode st i elems).st.num_elements_in_array =
      st.num_elements_in_array ∧
    st.metadata.max_size ≤
      (set_array_elements env mode st i elems).st.metadata.max_size := by
  intro elems
  induction elems with
  | nil => intro st i; simp [set_array_elements]
  | cons v rest ih =>
      intro st i
      obtain ⟨h1, h2, h3, h4⟩ := scalar_frame env mode st i v
      simp only [set_array_elements]
      cases hr : (check_and_set_scalar_value env mode st i v).err with
      | some e => simpa [hr] using ⟨h1, h2, h3, h4⟩
      | none =>
          by_cases hm : mode = Mode.soft ∧
              (check_and_set_scalar_value env mode st i v).was_set = false
          · simp only [hr]
            rw [if_pos hm]
            exact ⟨h1, h2, h3, h4⟩
          · obtain ⟨g1, g2, g3, g4⟩ :=
              ih (check_and_set_scalar_value env mode st i v).st (i + 1)
            simp only [hr]
            rw [if_neg hm]
            exact ⟨g1.trans h1, g2.trans h2, g3.trans h3, le_trans h4 g4⟩

/-- The element loop starting at position `i` with `n` elements touches no
slot at an index at or beyond `i + n`. -/
theorem loop_slot (env : VarEnv) (mode : Mode) :
    ∀ (elems : List PyValue) (st : VarState) (i j : Nat),
    i + elems.length ≤ j →
    (set_array_elements env mode st i elems).st.values[j]? =
      st.values[j]? := by
  intro elems
  induction elems with
  | nil => intro st i j hj; simp [set_array_elements]
  | cons v rest ih =>
      intro st i j hj
      simp only [List.length_cons] at hj
      have hij : i ≠ j := by omega
      have hs := scalar_slot env mode st i v j hij
      simp only [set_array_elements]
      cases hr : (check_and_set_scalar_value env mode st i v).err with
      | some e => simpa [hr] using hs
      | none =>
          by_cases hm : mode = Mode.soft ∧
              (check_and_set_scalar_value env mode st i v).was_set = false
          · simp only [hr]
            rw [if_pos hm]
            exact hs
          · have g := ih (check_and_set_scalar_value env mode st i v).st
              (i + 1) j (by omega)
            simp only [hr]
            rw [if_neg hm]
            exact g.trans hs

/-- When every element of the list is accepted by the connection check (for
any metadata), the element loop returns normally with the flag still set. -/
theorem loop_ok_of_acceptable (env : VarEnv) (mode : Mode) :
    ∀ (elems : List PyValue) (st : VarState) (i : Nat),
    (∀ v ∈ elems, ∀ m, (env.checkValue m (applyConv env v)).isSome = true) →
    (set_array_elements env mode st i elems).err = Option.none ∧
    (set_array_elements env mode st i elems).was_set = true := by
  intro elems
  induction elems with
  | nil => intro st i _; simp [set_array_elements]
  | cons v rest ih =>
      intro st i hacc
      obtain ⟨he, hw⟩ := scalar_ok_of_acceptable env mode st i v
        (hacc v (by simp) st.metadata)
      simp only [set_array_elements, he, hw]
      simpa using ih (check_and_set_scalar_value env mode st i v).st (i + 1)
        (fun u hu m => hacc u (by simp [hu]) m)

/-- Unfolding of `check_and_set_value` on an array variable fed a list. -/
theorem array_bind_unfold (env : VarEnv) (mode : Mode) (st : VarState)
    (pos : Nat) (elems : List PyValue) (ha : st.is_array = true) :
    check_and_set_value env mode st pos (.list elems) =
      if elems.length > st.num_elements then
        match mode with
        | .soft => ⟨st, Option.none, false⟩
        | .raising =>
            ⟨st, some (.incorrectVarArraysize st.num_elements elems.length),
              true⟩
      else
        let r := set_array_elements env mode st 0 elems
        match r.err with
        | some e => ⟨r.st, some e, r.was_set⟩
        | Option.none =>
            if mode = .soft ∧ r.was_set = false then ⟨r.st, Option.none, false⟩
            else
              ⟨r.st.set_num_elements_in_array elems.length, Option.none,
                r.was_set⟩ := by
  unfold check_and_set_value
  simp [ha]

/-- `check_and_set_value` leaves the array flag and `num_elements` unchanged
and never shrinks `max_size`. -/
theorem bind_frame (env : VarEnv) (mode : Mode) (st : VarState) (pos : Nat)
    (value : PyValue) :
    (check_and_set_value env mode st pos value).st.is_array = st.is_array ∧
    (check_and_set_value env mode st pos value).st.num_elements =
      st.num_elements ∧
    st.metadata.max_size ≤
      (check_and_set_value env mode st pos value).st.metadata.max_size := by
  unfold check_and_set_value
  by_cases ha : st.is_array = false
  · rw [if_pos ha]
    obtain ⟨h1, h2, _, h4⟩ := scalar_frame env mode st pos value
    exact ⟨h1, h2, h4⟩
  · rw [if_neg ha]
    cases value with
    | list elems =>
        simp only []
        by_cases hc : elems.length > st.num_elements
        · rw [if_pos hc]; cases mode <;> simp
        · rw [if_neg hc]
          obtain ⟨l1, l2, _, l4⟩ := loop_frame env mode elems st 0
          cases hl : (set_array_elements env mode st 0 elems).err with
          | some e => simpa [hl] using ⟨l1, l2, l4⟩
          | none =>
              by_cases hm : mode = Mode.soft ∧
                  (set_array_elements env mode st 0 elems).was_set = false
              · simp only [hl]
                rw [if_pos hm]
                exact ⟨l1, l2, l4⟩
              · simp only [hl]
                rw [if_neg hm]
                simpa [VarState.set_num_elements_in_array] using ⟨l1, l2, l4⟩
    | none => cases mode <;> simp
    | bool b => cases mode <;> simp
    | int i => cases mode <;> simp
    | str s => cases mode <;> simp

/-- `check_and_set_value` preserves the invariant
`num_elements_in_array ≤ num_elements`. -/
theorem bind_nia (env : VarEnv) (mode : Mode) (st : VarState) (pos : Nat)
    (value : PyValue)
    (hinv : st.num_elements_in_array ≤ st.num_elements) :
    (check_and_set_value env mode st pos value).st.num_elements_in_array ≤
      (check_and_set_value env mode st pos value).st.num_elements := by
  unfold check_and_set_value
  by_cases ha : st.is_array = false
  · rw [if_pos ha]
    obtain ⟨_, h2, h3, _⟩ := scalar_frame env mode st pos value
    rw [h2, h3]; exact hinv
  · rw [if_neg ha]
    cases value with
    | list elems =>
        simp only []
        by_cases hc : elems.length > st.num_elements
        · rw [if_pos hc]; cases mode <;> simpa using hinv
        · rw [if_neg hc]
          obtain ⟨_, l2, l3, _⟩ := loop_frame env mode elems st 0
          cases hl : (set_array_elements env mode st 0 elems).err with
          | some e => simp only [hl]; rw [l2, l3]; exact hinv
          | none =>
              by_cases hm : mode = Mode.soft ∧
                  (set_array_elements env mode st 0 elems).was_set = false
              · simp only [hl]
                rw [if_pos hm]
                simp only []
                rw [l2, l3]; exact hinv
              · simp only [hl]
                rw [if_neg hm]
                simp only [VarState.set_num_elements_in_array]
                rw [l2]; omega
    | none => cases mode <;> simpa using hinv
    | bool b => cases mode <;> simpa using hinv
    | int i => cases mode <;> simpa using hinv
    | str s => cases mode <;> simpa using hinv

/-- C6: with metadata already inferred, `_set_metadata_from_value` raises the
mixed-element-types error exactly when the newly inferred metadata's dbtype
or object type differs from the stored one; when both agree it succeeds and
the stored `max_size` is widened to the larger of the two sizes. -/
theorem C6_mixed_element_types (fv : PyValue → OracleMetadata) (sb ip : Bool)
    (m : OracleMetadata) (value : PyValue) :
    ((set_metadata_from_value fv sb (some m) value ip =
        .error .mixedElementTypes) ↔
      ((inferred_metadata fv sb ip value).dbtype ≠ m.dbtype ∨
        (inferred_metadata fv sb ip value).objtype ≠ m.objtype)) ∧
    ((inferred_metadata fv sb ip value).dbtype = m.dbtype →
      (inferred_metadata fv sb ip value).objtype = m.objtype →
      set_metadata_from_value fv sb (some m) value ip =
        .ok { m with max_size := max m.max_size (inferred_metadata fv sb ip value).max_size }) := by
  simp only [set_metadata_from_value]
  by_cases h : (inferred_metadata fv sb ip value).dbtype ≠ m.dbtype ∨
      (inferred_metadata fv sb ip value).objtype ≠ m.objtype
  · rw [if_pos h]
    constructor
    · simp [h]
    · intro h1 h2
      rcases h with h | h
      · exact absurd h1 h
      · exact absurd h2 h
  · rw [if_neg h]
    push_neg at h
    by_cases hs : (inferred_metadata fv sb ip value).max_size > m.max_size
    · rw [if_pos hs]
      constructor
      · simp [h.1, h.2]
      · intro _ _
        rw [Nat.max_eq_right (le_of_lt hs)]
    · rw [if_neg hs]
      constructor
      · simp [h.1, h.2]
      · intro _ _
        rw [Nat.max_eq_left (not_lt.1 hs)]

/-- C6 witness: inferring `DB_TYPE_BOOLEAN` metadata (mapped to
`DB_TYPE_BINARY_INTEGER`) against stored binary-integer metadata of smaller
`max_size` raises no error and widens the size. -/
theorem C6_witness :
    (inferred_metadata fv0 false false (.int 7)).dbtype = mBin.dbtype ∧
    (inferred_metadata fv0 false false (.int 7)).objtype = mBin.objtype ∧
    set_metadata_from_value fv0 false (some mBin) (.int 7) false =
      .ok { mBin with max_size := max mBin.max_size (inferred_metadata fv0 false false (.int 7)).max_size } :=
  ⟨rfl, rfl, (C6_mixed_element_types fv0 false false mBin (.int 7)).2 rfl rfl⟩

/-- C7: a value whose raw inferred dbtype is `DB_TYPE_BOOLEAN` ends up with
dbtype `DB_TYPE_BINARY_INTEGER` when the connection lacks native boolean
support and the context is not PL/SQL, and keeps `DB_TYPE_BOOLEAN`
otherwise. -/
theorem C7_boolean_fallback (fv : PyValue → OracleMetadata) (sb ip : Bool)
    (value : PyValue) (hb : (fv value).dbtype = DB_TYPE_BOOLEAN) :
    (inferred_metadata fv sb ip value).dbtype =
      if sb = false ∧ ip = false then DB_TYPE_BINARY_INTEGER
      else DB_TYPE_BOOLEAN := by
  unfold inferred_metadata
  by_cases h : sb = false ∧ ip = false
  · rw [if_pos ⟨hb, h.1, h.2⟩, if_pos h]
  · rw [if_neg (fun hc => h ⟨hc.2.1, hc.2.2⟩), if_neg h]
    exact hb

/-- C7 witness: a boolean-typed inference on a connection without native
boolean support, outside PL/SQL, falls back to the binary-integer type. -/
theorem C7_witness :
    (fv0 (.bool true)).dbtype = DB_TYPE_BOOLEAN ∧
    (inferred_metadata fv0 false false (.bool true)).dbtype =
      (if (false : Bool) = false ∧ (false : Bool) = false then
        DB_TYPE_BINARY_INTEGER
      else DB_TYPE_BOOLEAN) :=
  ⟨rfl, C7_boolean_fallback fv0 false false (.bool true) rfl⟩

/-- C9: for a non-array variable, `get_value` and `set_value` raise
`IndexError` exactly when `pos ≥ num_elements`; for `pos < num_elements`
they read the scalar slot, respectively delegate to the checked scalar
set. -/
theorem C9_scalar_position_check (env : VarEnv) (st : VarState) (pos : Nat)
    (value : PyValue) (ha : st.is_array = false) :
    ((get_value st pos = .error .indexError) ↔ st.num_elements ≤ pos) ∧
    (((set_value env st pos value).err = some .indexError) ↔
      st.num_elements ≤ pos) ∧
    (pos < st.num_elements →
      get_value st pos = .ok (get_scalar_value st pos) ∧
      set_value env st pos value =
        check_and_set_scalar_value env .raising st pos value) := by
  have hsc : check_and_set_value env .raising st pos value =
      check_and_set_scalar_value env .raising st pos value := by
    unfold check_and_set_value
    rw [if_pos ha]
  unfold get_value set_value
  by_cases hp : st.num_elements ≤ pos
  · simp only [ha]
    refine ⟨by simp [hp], by simp [hp], fun hlt => absurd hlt (by omega)⟩
  · simp only [ha]
    have hge : ¬ pos ≥ st.num_elements := hp
    rcases scalar_err env .raising st pos value with he | ⟨he, _⟩ <;>
      simp [hge, hsc, he, hp]

/-- C9 witness: position 0 of a one-element scalar variable is in range; the
getter reads the slot and the setter delegates to the checked scalar set. -/
theorem C9_witness :
    stSc.is_array = false ∧
    ((get_value stSc 0 = .error .indexError) ↔ stSc.num_elements ≤ 0) ∧
    (((set_value env0 stSc 0 (.int 5)).err = some .indexError) ↔
      stSc.num_elements ≤ 0) ∧
    (0 < stSc.num_elements →
      get_value stSc 0 = .ok (get_scalar_value stSc 0) ∧
      set_value env0 stSc 0 (.int 5) =
        check_and_set_scalar_value env0 .raising stSc 0 (.int 5)) :=
  ⟨rfl, C9_scalar_position_check env0 stSc 0 (.int 5) rfl⟩

/-- C10: `_finalize_init` normalizes a zero `num_elements` to 1 and keeps any
other count, so `num_elements ≥ 1` after it; `_on_reset_bind` sets
`num_elements` to the maximum of its current value and `num_rows`, so it only
changes when `num_rows` is larger and never decreases. -/
theorem C10_num_elements_floor_and_growth (st : VarState) (n : Nat) :
    1 ≤ st.finalize_init.num_elements ∧
    st.finalize_init.num_elements =
      (if st.num_elements = 0 then 1 else st.num_elements) ∧
    (on_reset_bind st n).num_elements = max st.num_elements n := by
  unfold on_reset_bind VarState.finalize_init
  split_ifs <;> simp_all <;> omega

/-- C4: `max_size` never shrinks once metadata is bound: the checked scalar
set (which invokes `_resize` only for a strictly larger encoded size), the
checked array set, and metadata re-inference from a value each leave
`max_size` unchanged or increase it. -/
theorem C4_max_size_monotone (env : VarEnv) (mode : Mode) (st : VarState)
    (pos : Nat) (value v2 : PyValue) (fv : PyValue → OracleMetadata)
    (sb ip : Bool) (m m2 : OracleMetadata) :
    st.metadata.max_size ≤
      (check_and_set_scalar_value env mode st pos value).st.metadata.max_size
    ∧
    st.metadata.max_size ≤
      (check_and_set_value env mode st pos value).st.metadata.max_size ∧
    (set_metadata_from_value fv sb (some m) v2 ip = .ok m2 →
      m.max_size ≤ m2.max_size) := by
  refine ⟨(scalar_frame env mode st pos value).2.2.2,
    (bind_frame env mode st pos value).2.2, fun h => ?_⟩
  simp only [set_metadata_from_value] at h
  by_cases h1 : (inferred_metadata fv sb ip v2).dbtype ≠ m.dbtype ∨
      (inferred_metadata fv sb ip v2).objtype ≠ m.objtype
  · rw [if_pos h1] at h
    exact Except.noConfusion h
  · rw [if_neg h1] at h
    by_cases h2 : (inferred_metadata fv sb ip v2).max_size > m.max_size
    · rw [if_pos h2] at h
      injection h with h'
      subst h'
      exact le_of_lt h2
    · rw [if_neg h2] at h
      injection h with h'
      subst h'
      exact le_refl _

/-- C4 witness: re-inference widens a stored binary-integer metadata from
size 3 to 5, and a scalar string bind of length 4 grows `max_size` from 2. -/
theorem C4_witness :
    set_metadata_from_value fv0 false (some mBin) (.int 7) false =
      .ok ⟨DB_TYPE_BINARY_INTEGER, Option.none, 5, 0⟩ ∧
    mBin.max_size ≤
      (⟨DB_TYPE_BINARY_INTEGER, Option.none, 5, 0⟩ : OracleMetadata).max_size
    ∧
    stStr.metadata.max_size ≤
      (check_and_set_scalar_value env0 .raising stStr 0
        (.str "hola")).st.metadata.max_size :=
  ⟨rfl,
   (C4_max_size_monotone env0 .raising stStr 0 (.str "hola") (.int 7) fv0
      false false mBin ⟨DB_TYPE_BINARY_INTEGER, Option.none, 5, 0⟩).2.2 rfl,
   (C4_max_size_monotone env0 .raising stStr 0 (.str "hola") (.int 7) fv0
      false false mBin ⟨DB_TYPE_BINARY_INTEGER, Option.none, 5, 0⟩).1⟩

/-- C5: the invariant `num_elements_in_array ≤ num_elements` is preserved by
every operation: the checked set (both pointer modes), the public
`set_value`, `_on_reset_bind` and `_finalize_init`. -/
theorem C5_capacity_invariant (env : VarEnv) (mode : Mode) (st : VarState)
    (pos n : Nat) (value : PyValue)
    (hinv : st.num_elements_in_array ≤ st.num_elements) :
    (check_and_set_value env mode st pos value).st.num_elements_in_array ≤
      (check_and_set_value env mode st pos value).st.num_elements ∧
    (set_value env st pos value).st.num_elements_in_array ≤
      (set_value env st pos value).st.num_elements ∧
    (on_reset_bind st n).num_elements_in_array ≤
      (on_reset_bind st n).num_elements ∧
    st.finalize_init.num_elements_in_array ≤
      st.finalize_init.num_elements := by
  refine ⟨bind_nia env mode st pos value hinv, ?_, ?_, ?_⟩
  · unfold set_value
    by_cases ha : st.is_array = true
    · simp only [ha, if_true]
      by_cases hpz : pos > 0
      · simp [hpz, hinv]
      · simp only [hpz, if_false]
        exact bind_nia env .raising st pos value hinv
    · simp only [ha, if_false]
      by_cases hp : pos ≥ st.num_elements
      · simp [hp, hinv]
      · simp only [hp, if_false]
        exact bind_nia env .raising st pos value hinv
  · unfold on_reset_bind VarState.finalize_init
    split_ifs <;> simp_all
    all_goals omega
  · unfold VarState.finalize_init
    split_ifs <;> simp_all

/-- C5 witness: a successful one-element array bind on a two-element array
variable keeps `num_elements_in_array ≤ num_elements`. -/
theorem C5_witness :
    stArr.num_elements_in_array ≤ stArr.num_elements ∧
    (check_and_set_value env0 .raising stArr 0
        (.list [.int 1])).st.num_elements_in_array ≤
      (check_and_set_value env0 .raising stArr 0
        (.list [.int 1])).st.num_elements :=
  ⟨by decide,
   (C5_capacity_invariant env0 .raising stArr 0 3 (.list [.int 1])
      (by decide)).1⟩

/-- C8: for an unacceptable scalar value, a non-list input to an array
variable, and an over-capacity list, soft validation (non-NULL `was_set`
pointer) clears the flag and returns with the state untouched and no error;
the NULL-pointer default mode raises on the same inputs. -/
theorem C8_soft_vs_raising (env : VarEnv) (st : VarState) (pos : Nat)
    (value : PyValue) (elems : List PyValue) :
    (env.checkValue st.metadata (applyConv env value) = Option.none →
      check_and_set_scalar_value env .soft st pos value =
        ⟨st, Option.none, false⟩ ∧
      check_and_set_scalar_value env .raising st pos value =
        ⟨st, some .valueNotAcceptable, true⟩) ∧
    (st.is_array = true → value.isList = false →
      check_and_set_value env .soft st pos value = ⟨st, Option.none, false⟩ ∧
      check_and_set_value env .raising st pos value =
        ⟨st, some .expectingListForArrayVar, true⟩) ∧
    (st.is_array = true → elems.length > st.num_elements →
      check_and_set_value env .soft st pos (.list elems) =
        ⟨st, Option.none, false⟩ ∧
      check_and_set_value env .raising st pos (.list elems) =
        ⟨st, some (.incorrectVarArraysize st.num_elements elems.length),
          true⟩) := by
  refine ⟨fun hc => ?_, fun ha hl => ?_, fun ha hc => ?_⟩
  · unfold check_and_set_scalar_value
    simp [hc]
  · unfold check_and_set_value
    simp only [ha]
    cases value <;> simp_all [PyValue.isList]
  · rw [array_bind_unfold env .soft st pos elems ha, if_pos hc]
    rw [array_bind_unfold env .raising st pos elems ha, if_pos hc]
    exact ⟨rfl, rfl⟩

/-- C8 witness: the rejected integer 0 as a scalar, a non-list scalar fed to
the array variable, and a three-element list on a two-element array. -/
theorem C8_witness :
    env0.checkValue stArr.metadata (applyConv env0 (.int 0)) = Option.none ∧
    stArr.is_array = true ∧
    (PyValue.int 0).isList = false ∧
    [PyValue.int 1, .int 2, .int 3].length > stArr.num_elements ∧
    check_and_set_scalar_value env0 .soft stArr 0 (.int 0) =
      ⟨stArr, Option.none, false⟩ ∧
    check_and_set_value env0 .raising stArr 0 (.int 0) =
      ⟨stArr, some .expectingListForArrayVar, true⟩ ∧
    check_and_set_value env0 .raising stArr 0
        (.list [.int 1, .int 2, .int 3]) =
      ⟨stArr, some (.incorrectVarArraysize stArr.num_elements 3), true⟩ := by
  refine ⟨rfl, rfl, rfl, by decide, ?_, ?_, ?_⟩
  · exact ((C8_soft_vs_raising env0 stArr 0 (.int 0) []).1 rfl).1
  · exact ((C8_soft_vs_raising env0 stArr 0 (.int 0) []).2.1 rfl rfl).2
  · exact ((C8_soft_vs_raising env0 stArr 0 (.int 0)
      [.int 1, .int 2, .int 3]).2.2 rfl (by decide)).2

/-- C1 as stated is false: binding `[1, 0]` (second element rejected by the
connection check) to a two-element array variable in default raising mode
raises, yet slot 0 has already been mutated before the raise. -/
theorem C1_counterexample :
    (check_and_set_value env0 .raising stArr 0
        (.list [.int 1, .int 0])).err.isSome = true ∧
    (check_and_set_value env0 .raising stArr 0
        (.list [.int 1, .int 0])).st.values ≠ stArr.values := by decide

/-- C1 amended: when a default-mode array bind raises on an invalid element,
`num_elements_in_array` is unchanged and every slot at or beyond the list's
length is unchanged; slots before the failing index may however already have
been set (the checked prefix is committed). -/
theorem C1_raise_no_count_update (env : VarEnv) (st : VarState) (pos : Nat)
    (elems : List PyValue) (ha : st.is_array = true)
    (hr : (check_and_set_value env .raising st pos
        (.list elems)).err.isSome = true) :
    (check_and_set_value env .raising st pos
        (.list elems)).st.num_elements_in_array = st.num_elements_in_array ∧
    ∀ j, elems.length ≤ j →
      (check_and_set_value env .raising st pos (.list elems)).st.values[j]? =
        st.values[j]? := by
  rw [array_bind_unfold env .raising st pos elems ha] at hr ⊢
  by_cases hc : elems.length > st.num_elements
  · rw [if_pos hc] at hr ⊢
    exact ⟨rfl, fun j hj => rfl⟩
  · rw [if_neg hc] at hr ⊢
    cases hl : (set_array_elements env .raising st 0 elems).err with
    | none =>
        exfalso
        simp only [hl] at hr
        rw [if_neg (fun hx => Mode.noConfusion hx.1)] at hr
        simp at hr
    | some e =>
        have hfr := loop_frame env .raising elems st 0
        simp only [hl]
        exact ⟨hfr.2.2.1, fun j hj =>
          loop_slot env .raising elems st 0 j (by omega)⟩

/-- C1 witness: the raising bind of `[1, 0]` leaves the element count and
the slot beyond the list untouched. -/
theorem C1_witness :
    stArr.is_array = true ∧
    (check_and_set_value env0 .raising stArr 0
        (.list [.int 1, .int 0])).err.isSome = true ∧
    (check_and_set_value env0 .raising stArr 0
        (.list [.int 1, .int 0])).st.num_elements_in_array =
      stArr.num_elements_in_array ∧
    (check_and_set_value env0 .raising stArr 0
        (.list [.int 1, .int 0])).st.values[2]? = stArr.values[2]? := by
  refine ⟨rfl, by decide, ?_, ?_⟩
  · exact (C1_raise_no_count_update env0 stArr 0 [.int 1, .int 0] rfl
      (by decide)).1
  · exact (C1_raise_no_count_update env0 stArr 0 [.int 1, .int 0] rfl
      (by decide)).2 2 (by decide)

/-- C2 as stated is false: a one-element list (within the two-element
capacity) whose element is rejected by the connection check raises instead
of being accepted, and `num_elements_in_array` is not set to 1. -/
theorem C2_counterexample :
    [PyValue.int 0].length ≤ stArr.num_elements ∧
    (check_and_set_value env0 .raising stArr 0
        (.list [.int 0])).err.isSome = true ∧
    (check_and_set_value env0 .raising stArr 0
        (.list [.int 0])).st.num_elements_in_array ≠ 1 := by decide

/-- C2 amended: binding a list longer than `num_elements` raises the
capacity error, while a list of length at most `num_elements` all of whose
elements pass the connection check is accepted and sets
`num_elements_in_array` to the list's length. -/
theorem C2_array_capacity (env : VarEnv) (st : VarState) (pos : Nat)
    (elems : List PyValue) (ha : st.is_array = true) :
    (elems.length > st.num_elements →
      check_and_set_value env .raising st pos (.list elems) =
        ⟨st, some (.incorrectVarArraysize st.num_elements elems.length),
          true⟩) ∧
    (elems.length ≤ st.num_elements →
      (∀ v ∈ elems, ∀ m, (env.checkValue m (applyConv env v)).isSome = true) →
      (check_and_set_value env .raising st pos (.list elems)).err =
        Option.none ∧
      (check_and_set_value env .raising st pos
          (.list elems)).st.num_elements_in_array = elems.length) := by
  constructor
  · intro hc
    rw [array_bind_unfold env .raising st pos elems ha, if_pos hc]
  · intro hle hacc
    obtain ⟨he, hw⟩ := loop_ok_of_acceptable env .raising elems st 0 hacc
    rw [array_bind_unfold env .raising st pos elems ha,
      if_neg (by omega : ¬ elems.length > st.num_elements)]
    simp only [he]
    rw [if_neg (fun hx => Mode.noConfusion hx.1)]
    exact ⟨rfl, rfl⟩

/-- C2 witness: a three-element list on a two-element array raises the
capacity error; a one-element list of an accepted value succeeds and sets
the element count to 1. -/
theorem C2_witness :
    [PyValue.int 5, .int 6, .int 7].length > stArr.num_elements ∧
    check_and_set_value env0 .raising stArr 0
        (.list [.int 5, .int 6, .int 7]) =
      ⟨stArr, some (.incorrectVarArraysize stArr.num_elements 3), true⟩ ∧
    [PyValue.int 5].length ≤ stArr.num_elements ∧
    (check_and_set_value env0 .raising stArr 0 (.list [.int 5])).err =
      Option.none ∧
    (check_and_set_value env0 .raising stArr 0
        (.list [.int 5])).st.num_elements_in_array = 1 := by
  refine ⟨by decide, ?_, by decide, ?_, ?_⟩
  · exact (C2_array_capacity env0 stArr 0 [.int 5, .int 6, .int 7] rfl).1
      (by decide)
  · exact ((C2_array_capacity env0 stArr 0 [.int 5] rfl).2 (by decide)
      (fun v hv m => by simp at hv; subst hv; rfl)).1
  · exact ((C2_array_capacity env0 stArr 0 [.int 5] rfl).2 (by decide)
      (fun v hv m => by simp at hv; subst hv; rfl)).2

/-- C3: a successful default-mode array bind of a `k`-element list mutates
only slots `0 … k−1`: every slot at index `k` or beyond keeps its prior
value. -/
theorem C3_trailing_slots_unchanged (env : VarEnv) (st : VarState)
    (pos : Nat) (elems : List PyValue) (ha : st.is_array = true)
    (hok : (check_and_set_value env .raising st pos (.list elems)).err =
      Option.none) :
    ∀ j, elems.length ≤ j →
      (check_and_set_value env .raising st pos (.list elems)).st.values[j]? =
        st.values[j]? := by
  intro j hj
  rw [array_bind_unfold env .raising st pos elems ha] at hok ⊢
  by_cases hc : elems.length > st.num_elements
  · rw [if_pos hc] at hok
    simp at hok
  · rw [if_neg hc] at hok ⊢
    cases hl : (set_array_elements env .raising st 0 elems).err with
    | some e => simp [hl] at hok
    | none =>
        have hslot := loop_slot env .raising elems st 0 j (by omega)
        simp only [hl]
        rw [if_neg (fun hx => Mode.noConfusion hx.1)]
        simpa [VarState.set_num_elements_in_array] using hslot

/-- C3 witness: binding a one-element list to the two-element array leaves
slot 1 untouched. -/
theorem C3_witness :
    stArr.is_array = true ∧
    (check_and_set_value env0 .raising stArr 0 (.list [.int 1])).err =
      Option.none ∧
    (check_and_set_value env0 .raising stArr 0
        (.list [.int 1])).st.values[1]? = stArr.values[1]? :=
  ⟨rfl, by decide,
   C3_trailing_slots_unchanged env0 stArr 0 [.int 1] rfl (by decide) 1
     (by decide)⟩

end OracleVar
